import Mathlib

/-!
Shallow embedding of the formation master node
(`scripts/master_node.py`) and the master MAVLink bridge
(`scripts/master_mavlink_bridge.py`).

Python float arithmetic is idealised as real arithmetic.  Numpy
row vectors of length 3 become `Vec3 := Fin 3 → ℝ`; the n×3 arrays
`P`, `S_array`, `G`, `current_P` become `Fin n → Vec3`; the Python
lists of booleans become `Fin n → Bool`.  ROS publishing is modelled
by returning the published values alongside the new state.
-/

open Classical

namespace Formation

/-- Row vector of three real coordinates (one row of an n×3 numpy array). -/
def Vec3 : Type := Fin 3 → ℝ

/-- Componentwise difference of two rows, as in `self.P[i,:] - self.P[j,:]`. -/
def sub3 (u v : Vec3) : Vec3 := fun k => u k - v k

/-- Dot product of two rows. -/
noncomputable def dot3 (u v : Vec3) : ℝ := ∑ k, u k * v k

/-- Euclidean norm of a row, as computed by `np.linalg.norm`. -/
noncomputable def norm3 (u : Vec3) : ℝ := Real.sqrt (dot3 u u)

/-- Build a row from three coordinates. -/
def vec3 (a b c : ℝ) : Vec3 := ![a, b, c]

/-- Safety distance `delta = 2.0*(2**0.5)*R` from `Mission.__init__`. -/
noncomputable def delta (R : ℝ) : ℝ := 2 * Real.sqrt 2 * R

/-- Pairwise-separation property that the validation loops of
`Mission.validate_positions` decide: every pair of distinct rows is at
distance strictly greater than `d` (the loops clear the flag exactly
when some pair is at distance `≤ d`). -/
def pairwiseSep {n : ℕ} (Q : Fin n → Vec3) (d : ℝ) : Prop :=
  ∀ i j : Fin n, i ≠ j → ¬ (norm3 (sub3 (Q i) (Q j)) ≤ d)

/-- Message `FormationPositions`: assigned goals and completion time `tf`. -/
structure FormationPositions (n : ℕ) where
  goals : Fin n → Vec3
  tf : ℝ

/-- Message `RobotState` as consumed by `r0Cb` .. `r4Cb`: a point plus the
`arrived` and `received_goal` flags. -/
structure RobotStateMsg where
  point : Vec3
  arrived : Bool
  received_goal : Bool

/-- Mutable fields of the `Mission` object (`Mission.__init__`); the
constants `n`, `R`, `vmax` are carried as parameters. -/
structure MissionState (n : ℕ) where
  P : Fin n → Vec3
  S_array : Fin n → Vec3
  G : Fin n → Vec3
  current_P : Fin n → Vec3
  goals_msg : FormationPositions n
  arrival_state : Fin n → Bool
  received_goals : Fin n → Bool
  formation_completed : Bool
  valid_P : Bool
  valid_S : Bool
  P_is_set : Bool
  S_is_set : Bool
  G_is_set : Bool
  M_START : Bool
  M_END : Bool

/-- State built by `Mission.__init__`: zero arrays, the configured shape,
and every flag false. -/
def initState (n : ℕ) (shape : Fin n → Vec3) : MissionState n where
  P := fun _ => vec3 0 0 0
  S_array := shape
  G := fun _ => vec3 0 0 0
  current_P := fun _ => vec3 0 0 0
  goals_msg := { goals := fun _ => vec3 0 0 0, tf := 0 }
  arrival_state := fun _ => false
  received_goals := fun _ => false
  formation_completed := false
  valid_P := false
  valid_S := false
  P_is_set := false
  S_is_set := false
  G_is_set := false
  M_START := false
  M_END := false

/-- Python `all(...)` over a list of n booleans. -/
def allTrue {n : ℕ} (f : Fin n → Bool) : Bool :=
  (List.finRange n).all f

/-- Robot-state callback: `r0Cb` .. `r4Cb` are five hardcoded copies of
this body for i = 0..4; each records the point, the `arrived` flag and
the `received_goal` flag of robot i. -/
def rCb {n : ℕ} (i : Fin n) (msg : RobotStateMsg) (s : MissionState n) :
    MissionState n :=
  { s with
    current_P := Function.update s.current_P i msg.point
    arrival_state := Function.update s.arrival_state i msg.arrived
    received_goals := Function.update s.received_goals i msg.received_goal }

/-- `Mission.set_start_posCb`: snapshot current positions as `P`. -/
def set_start_posCb {n : ℕ} (s : MissionState n) : MissionState n :=
  { s with P := s.current_P, P_is_set := true }

/-- `Mission.set_desired_formation`: reload the shape parameter. -/
def set_desired_formation {n : ℕ} (shape : Fin n → Vec3)
    (s : MissionState n) : MissionState n :=
  { s with S_array := shape, S_is_set := true }

/-- `Mission.validate_positions`: the two break-out double loops set
`valid_P` (resp. `valid_S`) to false exactly when some pair of distinct
rows of `P` (resp. `S_array`) is at distance `≤ delta`. -/
noncomputable def validate_positions {n : ℕ} (R : ℝ) (s : MissionState n) :
    MissionState n :=
  { s with
    valid_P := decide (pairwiseSep s.P (delta R))
    valid_S := decide (pairwiseSep s.S_array (delta R)) }

/-- Completion-time loop of `Mission.compute_assignment`:
`tf = 0.0; for v in vs: if v > tf: tf = v`. -/
noncomputable def tfLoop (vs : List ℝ) : ℝ :=
  vs.foldl (fun tf v => if v > tf then v else tf) 0

/-- `Mission.compute_assignment`, after the external solver `lapjv` has
returned the column assignment `x` (the solver is a third-party library;
its documented contract is that `x` is a permutation of `0..n-1`, so it
is passed here as an `Equiv.Perm`).  Sets `G[i] = S_array[x[i]]`, copies
the goals into `goals_msg`, computes `tf` as the running maximum of
`norm(P[i]-G[i])/vmax`, and sets `G_is_set`. -/
noncomputable def compute_assignment {n : ℕ} (vmax : ℝ)
    (x : Equiv.Perm (Fin n)) (s : MissionState n) : MissionState n :=
  let G : Fin n → Vec3 := fun i => s.S_array (x i)
  let tf : ℝ :=
    tfLoop ((List.finRange n).map (fun i => norm3 (sub3 (s.P i) (G i)) / vmax))
  { s with
    G := G
    goals_msg := { goals := G, tf := tf }
    G_is_set := true }

/-- State left behind by `Mission.startCb`, whether or not it raises.
When the mission is already started the callback only warns.  Otherwise
it snapshots positions, reloads the shape and validates; the guard
`if self.valid_S and valid_P:` then either short-circuits (when
`valid_S` is false) or raises `NameError` on the undefined bare name
`valid_P`, so the `compute_assignment` / `M_START = True` branch is
never reached and the mutations made so far persist. -/
noncomputable def startState {n : ℕ} (R : ℝ) (shape : Fin n → Vec3)
    (s : MissionState n) : MissionState n :=
  if s.M_START then s
  else validate_positions R (set_desired_formation shape (set_start_posCb s))

/-- `Mission.startCb` as a fallible call: `Except.error` models the
`NameError` raised by the bare name `valid_P` in
`if self.valid_S and valid_P:` whenever `self.valid_S` is true. -/
noncomputable def startCb {n : ℕ} (R : ℝ) (shape : Fin n → Vec3)
    (s : MissionState n) : Except String (MissionState n) :=
  if s.M_START then Except.ok s
  else if (validate_positions R (set_desired_formation shape
      (set_start_posCb s))).valid_S then
    Except.error "NameError: name valid_P is not defined"
  else
    Except.ok (validate_positions R (set_desired_formation shape
      (set_start_posCb s)))

/-- `Mission.landCb`: reset the four phase flags. -/
def landCb {n : ℕ} (s : MissionState n) : MissionState n :=
  { s with M_START := false, P_is_set := false, S_is_set := false,
           G_is_set := false }

/-- `Mission.holdCb`: identical body to `landCb`. -/
def holdCb {n : ℕ} (s : MissionState n) : MissionState n :=
  { s with M_START := false, P_is_set := false, S_is_set := false,
           G_is_set := false }

/-- `Mission.isFormationComplete`: store and return `all(arrival_state)`. -/
def isFormationComplete {n : ℕ} (s : MissionState n) :
    MissionState n × Bool :=
  let fc := allTrue s.arrival_state
  ({ s with formation_completed := fc }, fc)

/-- Messages published by one iteration of the `main` control loop. -/
structure TickOut where
  pubGoals : Bool
  pubGo : Bool

/-- Body of the `while not rospy.is_shutdown()` loop in `main`: while
started, clear `M_END` and publish either the goals (some robot has not
received its goal) or the go signal (all received); then, if
`isFormationComplete()`, mark the mission ended and clear the phase
flags. -/
def tick {n : ℕ} (s : MissionState n) : MissionState n × TickOut :=
  let out : TickOut :=
    if s.M_START then
      if ¬ allTrue s.received_goals then TickOut.mk true false
      else TickOut.mk false true
    else TickOut.mk false false
  let s1 : MissionState n := if s.M_START then { s with M_END := false } else s
  let s2 := (isFormationComplete s1).1
  let fc := (isFormationComplete s1).2
  if fc then
    ({ s2 with M_END := true, M_START := false, P_is_set := false,
               S_is_set := false, G_is_set := false }, out)
  else (s2, out)

/-! Cost matrix of `Mission.compute_assignment`:
`K = -1.0*np.dot(self.P, np.transpose(self.S_array))`. -/

/-- Transpose of the n×3 shape array, as in `np.transpose(self.S_array)`. -/
def npTranspose {n : ℕ} (S : Fin n → Vec3) : Fin 3 → Fin n → ℝ :=
  fun k j => S j k

/-- Matrix product of an n×3 and a 3×n array, as in `np.dot`. -/
noncomputable def npDot {n : ℕ} (A : Fin n → Vec3) (B : Fin 3 → Fin n → ℝ) :
    Fin n → Fin n → ℝ :=
  fun i j => ∑ k, A i k * B k j

/-- The cost matrix `K` handed to the assignment solver. -/
noncomputable def costK {n : ℕ} (P S : Fin n → Vec3) : Fin n → Fin n → ℝ :=
  fun i j => -1 * npDot P (npTranspose S) i j

/-! Master MAVLink bridge (`scripts/master_mavlink_bridge.py`). -/

/-- MAVLink command id `MAV_CMD_USER_1` (pymavlink enum value). -/
def MAV_CMD_USER_1 : ℕ := 31010

/-- Opcode `self.ROBOT_STATE = 1`, compared against the float `param1`. -/
def ROBOT_STATE : ℝ := 1

/-- Opcode class `self.MASTER_CMD = 2`. -/
def MASTER_CMD : ℝ := 2

/-- Opcode id `self.MASTER_CMD_GOAL = 14`. -/
def MASTER_CMD_GOAL : ℝ := 14

/-- One outbound `command_long_send` invocation: positional arguments
(target system, target component, command, confirmation, p1..p7). -/
structure SentMsg where
  target_system : ℕ
  target_component : ℕ
  command : ℕ
  confirmation : ℕ
  p1 : ℝ
  p2 : ℝ
  p3 : ℝ
  p4 : ℝ
  p5 : ℝ
  p6 : ℝ
  p7 : ℝ

/-- Inbound raw MAVLink message as inspected by `recvCb`.  pymavlink
message objects expose only the fields of their own type: every message
has a type and a source system, but `target_system` exists only on types
that declare it (COMMAND_LONG does; HEARTBEAT and BAD_DATA, for example,
do not), so it is modelled as an `Option`; reading it on a message
without the attribute raises `AttributeError`.  The command and parameter
fields are consulted only after the type is known to be COMMAND_LONG
(Python short-circuits the conjunction), where they always exist. -/
structure RawMsg where
  msgType : String
  srcSystem : ℕ
  target_system : Option ℕ
  command : ℕ
  param1 : ℝ
  param2 : ℝ
  param3 : ℝ
  param4 : ℝ
  param5 : ℝ
  param6 : ℝ
  param7 : ℝ

/-- Fields of the published `RobotFormationState` message, in the order
they are filled by `recvCb` (the header timestamp is omitted). -/
structure RobotFormationState where
  received_goal : ℝ
  mission_started : ℝ
  arrived : ℝ
  x : ℝ
  y : ℝ
  z : ℝ

/-- `MasterBridge.formationCb`: for i in 0..n-1 send the goal of robot i
to wire target i+1 with opcode pair (MASTER_CMD, MASTER_CMD_GOAL),
parameters x, y, z, tf, 0. -/
noncomputable def formationCb {n : ℕ} (msg : FormationPositions n) :
    List SentMsg :=
  (List.finRange n).map (fun (i : Fin n) =>
    { target_system := i.val + 1
      target_component := 0
      command := MAV_CMD_USER_1
      confirmation := 0
      p1 := MASTER_CMD
      p2 := MASTER_CMD_GOAL
      p3 := msg.goals i 0
      p4 := msg.goals i 1
      p5 := msg.goals i 2
      p6 := msg.tf
      p7 := 0 })

/-- One iteration of `MasterBridge.recvCb` on a received message.  The
loop body first reads `msg.target_system` (line 112) before any type
check, so a message whose type lacks that attribute raises
`AttributeError`, killing the receive thread (modelled as
`Except.error`).  Otherwise it accepts only `COMMAND_LONG` with source in
`[1, n]`, command `MAV_CMD_USER_1` and target equal to the master system
id; on a `ROBOT_STATE` report it publishes a `RobotFormationState` on the
channel of robot `srcSystem - 1`; everything else publishes nothing (the
ACK branch only logs, unmatched messages are dropped with a debug-only
log). -/
noncomputable def recvCb (n master_sys_id : ℕ) (m : RawMsg) :
    Except String (Option (ℕ × RobotFormationState)) :=
  if m.target_system = none then
    Except.error "AttributeError: object has no attribute target_system"
  else if m.msgType = "COMMAND_LONG" ∧ 0 < m.srcSystem ∧ m.srcSystem ≤ n ∧
      m.command = MAV_CMD_USER_1 ∧ m.target_system = some master_sys_id then
    if m.param1 = ROBOT_STATE then
      Except.ok (some (m.srcSystem - 1,
        { received_goal := m.param2
          mission_started := m.param3
          arrived := m.param4
          x := m.param5
          y := m.param6
          z := m.param7 }))
    else Except.ok none
  else Except.ok none

/-! Events of the master node process, for reachability of mission
states: control-loop ticks, the start/land/hold subscribers and the
per-robot state subscribers. -/

/-- One asynchronous event handled by the master node. -/
inductive MEvent (n : ℕ) where
  | tick : MEvent n
  | start : ℝ → (Fin n → Vec3) → MEvent n
  | land : MEvent n
  | hold : MEvent n
  | robot : Fin n → RobotStateMsg → MEvent n

/-- Effect of one event on the mission state (publications dropped). -/
noncomputable def stepEv {n : ℕ} (s : MissionState n) :
    MEvent n → MissionState n
  | MEvent.tick => (tick s).1
  | MEvent.start R shape => startState R shape s
  | MEvent.land => landCb s
  | MEvent.hold => holdCb s
  | MEvent.robot i m => rCb i m s

/-- Run a list of events from the freshly initialised state. -/
noncomputable def run {n : ℕ} (shape0 : Fin n → Vec3)
    (es : List (MEvent n)) : MissionState n :=
  es.foldl stepEv (initState n shape0)

/-- Mission states reachable from the initial state by any sequence of
ticks, start/land/hold commands and robot-state callbacks. -/
def Reachable {n : ℕ} (shape0 : Fin n → Vec3) (s : MissionState n) : Prop :=
  ∃ es, run shape0 es = s

/-- The mission-state invariant stated by the spec: `ended` implies all
`arrived`, and `started` and `ended` are never simultaneously true. -/
def MissionInv {n : ℕ} (s : MissionState n) : Prop :=
  (s.M_END = true → ∀ i, s.arrival_state i = true) ∧
  ¬ (s.M_START = true ∧ s.M_END = true)

/-! Helper lemmas. -/

lemma allTrue_iff {n : ℕ} (f : Fin n → Bool) :
    allTrue f = true ↔ ∀ i, f i = true := by
  simp [allTrue, List.all_eq_true, List.mem_finRange]

lemma vec3_app_zero (a b c : ℝ) : vec3 a b c 0 = a := rfl

lemma vec3_app_one (a b c : ℝ) : vec3 a b c 1 = b := rfl

lemma vec3_app_two (a b c : ℝ) : vec3 a b c 2 = c := rfl

lemma sub3_vec3 (a b c d e f : ℝ) :
    sub3 (vec3 a b c) (vec3 d e f) = vec3 (a - d) (b - e) (c - f) := by
  funext k
  fin_cases k <;> rfl

lemma dot3_vec3 (a b c d e f : ℝ) :
    dot3 (vec3 a b c) (vec3 d e f) = a * d + b * e + c * f := by
  simp [dot3, vec3, Fin.sum_univ_three]

lemma norm3_vec3 (a b c : ℝ) :
    norm3 (vec3 a b c) = Real.sqrt (a * a + b * b + c * c) := by
  rw [norm3, dot3_vec3]

lemma foldlMax_init_le (l : List ℝ) (a : ℝ) :
    a ≤ l.foldl (fun t v => if v > t then v else t) a := by
  induction l generalizing a with
  | nil => exact le_rfl
  | cons b l ih =>
      simp only [List.foldl_cons]
      refine le_trans ?_ (ih (if b > a then b else a))
      by_cases hb : b > a
      · rw [if_pos hb]
        exact le_of_lt hb
      · rw [if_neg hb]

lemma foldlMax_le {l : List ℝ} (a : ℝ) {v : ℝ} (hv : v ∈ l) :
    v ≤ l.foldl (fun t w => if w > t then w else t) a := by
  induction l generalizing a with
  | nil => cases hv
  | cons b l ih =>
      simp only [List.foldl_cons]
      rcases List.mem_cons.mp hv with h | h
      · subst h
        refine le_trans ?_ (foldlMax_init_le l _)
        by_cases hb : v > a
        · rw [if_pos hb]
        · rw [if_neg hb]
          exact le_of_not_lt hb
      · exact ih _ h

lemma foldlMax_eq_init_or_mem (l : List ℝ) (a : ℝ) :
    l.foldl (fun t w => if w > t then w else t) a = a ∨
      ∃ v ∈ l, l.foldl (fun t w => if w > t then w else t) a = v := by
  induction l generalizing a with
  | nil => exact Or.inl rfl
  | cons b l ih =>
      simp only [List.foldl_cons]
      rcases ih (if b > a then b else a) with h | ⟨v, hvl, he⟩
      · by_cases hb : b > a
        · rw [if_pos hb] at h ⊢
          exact Or.inr ⟨b, List.mem_cons_self b l, h⟩
        · rw [if_neg hb] at h ⊢
          exact Or.inl h
      · exact Or.inr ⟨v, List.mem_cons_of_mem b hvl, he⟩

lemma pairwiseSep_comp_perm {n : ℕ} (Q : Fin n → Vec3) (d : ℝ)
    (σ : Equiv.Perm (Fin n)) :
    pairwiseSep (fun i => Q (σ i)) d ↔ pairwiseSep Q d := by
  constructor
  · intro h i j hne
    have := h (σ.symm i) (σ.symm j) (σ.symm.injective.ne hne)
    simpa using this
  · intro h i j hne
    exact h (σ i) (σ j) (σ.injective.ne hne)

/-! Claim theorems. -/

/-- C1: for every start configuration `P` and shape `S` with all pairwise
distances strictly greater than `delta`, `compute_assignment` (fed the
permutation returned by the external solver) assigns no slot twice, sets
`G[i] = S[x[i]]` (also in the published goals message), and sets the shared
deadline `tf` to the maximum of `norm(P[i]-G[i])/vmax`, so `tf` dominates
every individual travel time and is attained by at least one robot. -/
theorem compute_assignment_correct {n : ℕ} (R vmax : ℝ) (s : MissionState n)
    (x : Equiv.Perm (Fin n)) (hn : 0 < n) (hv : 0 < vmax)
    (hP : pairwiseSep s.P (delta R)) (hS : pairwiseSep s.S_array (delta R)) :
    (∀ i j : Fin n, i ≠ j → x i ≠ x j) ∧
    (∀ i, (compute_assignment vmax x s).G i = s.S_array (x i)) ∧
    (∀ i, (compute_assignment vmax x s).goals_msg.goals i = s.S_array (x i)) ∧
    (∀ i, norm3 (sub3 (s.P i) (s.S_array (x i))) / vmax ≤
            (compute_assignment vmax x s).goals_msg.tf) ∧
    (∃ i, (compute_assignment vmax x s).goals_msg.tf =
            norm3 (sub3 (s.P i) (s.S_array (x i))) / vmax) := by
  have htf : (compute_assignment vmax x s).goals_msg.tf =
      tfLoop ((List.finRange n).map
        (fun i => norm3 (sub3 (s.P i) (s.S_array (x i))) / vmax)) := rfl
  refine ⟨fun i j hne => x.injective.ne hne, fun i => rfl, fun i => rfl,
    ?_, ?_⟩
  · intro i
    rw [htf]
    exact foldlMax_le 0 (List.mem_map_of_mem _ (List.mem_finRange i))
  · rw [htf, tfLoop]
    rcases foldlMax_eq_init_or_mem ((List.finRange n).map
      (fun i => norm3 (sub3 (s.P i) (s.S_array (x i))) / vmax)) 0 with h | h
    · refine ⟨⟨0, hn⟩, ?_⟩
      have h1 : norm3 (sub3 (s.P ⟨0, hn⟩) (s.S_array (x ⟨0, hn⟩))) / vmax ≤ 0 :=
        h ▸ foldlMax_le 0 (List.mem_map_of_mem _ (List.mem_finRange ⟨0, hn⟩))
      have h2 : 0 ≤ norm3 (sub3 (s.P ⟨0, hn⟩) (s.S_array (x ⟨0, hn⟩))) / vmax :=
        div_nonneg (Real.sqrt_nonneg _) (le_of_lt hv)
      rw [h]
      exact (le_antisymm h1 h2).symm
    · rcases h with ⟨v, hvl, he⟩
      rcases List.mem_map.mp hvl with ⟨i, _, hfi⟩
      exact ⟨i, by rw [he, ← hfi]⟩

/-- Comparison helper: a row whose squared length exceeds the square of a
nonnegative bound is farther than the bound. -/
lemma not_norm3_le {u : Vec3} {d : ℝ} (h : d ^ 2 < dot3 u u) (hd : 0 ≤ d) :
    ¬ (norm3 u ≤ d) := by
  intro hle
  rw [norm3] at hle
  exact absurd ((Real.sqrt_le_left hd).mp hle) (not_le.mpr h)

/-- Start positions used in concrete examples: two robots 3 apart. -/
def exP : Fin 2 → Vec3 := ![vec3 0 0 0, vec3 3 0 0]

/-- Shape used in concrete examples: two slots 3 apart. -/
def exS : Fin 2 → Vec3 := ![vec3 0 4 0, vec3 3 4 0]

/-- Example mission state: fresh state with the example start snapshot. -/
def exState : MissionState 2 := { initState 2 exS with P := exP }

lemma delta_half_sq : (delta (1 / 2)) ^ 2 = 2 := by
  have h : delta (1 / 2) = Real.sqrt 2 := by rw [delta]; ring
  rw [h]
  exact Real.sq_sqrt (by norm_num)

lemma delta_half_nonneg : 0 ≤ delta (1 / 2) := by
  have h : delta (1 / 2) = Real.sqrt 2 := by rw [delta]; ring
  rw [h]
  exact Real.sqrt_nonneg 2

lemma exP_sep : pairwiseSep exP (delta (1 / 2)) := by
  intro i j hne
  apply not_norm3_le _ delta_half_nonneg
  rw [delta_half_sq]
  fin_cases i <;> fin_cases j <;>
    simp_all [exP, sub3_vec3, dot3_vec3] <;> norm_num

lemma exS_sep : pairwiseSep exS (delta (1 / 2)) := by
  intro i j hne
  apply not_norm3_le _ delta_half_nonneg
  rw [delta_half_sq]
  fin_cases i <;> fin_cases j <;>
    simp_all [exS, sub3_vec3, dot3_vec3] <;> norm_num

/-- Witness for C1 at a concrete two-robot instance: robots 3 apart on
the x axis, slots 3 apart, radius 1/2 (so delta = sqrt 2 < 3), vmax = 1,
identity assignment. -/
theorem compute_assignment_correct_witness :
    (0 < 2) ∧ ((0 : ℝ) < 1) ∧
    pairwiseSep exState.P (delta (1 / 2)) ∧
    pairwiseSep exState.S_array (delta (1 / 2)) ∧
    ((∀ i j : Fin 2, i ≠ j → Equiv.refl (Fin 2) i ≠ Equiv.refl (Fin 2) j) ∧
     (∀ i, (compute_assignment 1 (Equiv.refl (Fin 2)) exState).G i =
        exState.S_array (Equiv.refl (Fin 2) i)) ∧
     (∀ i, (compute_assignment 1 (Equiv.refl (Fin 2)) exState).goals_msg.goals i =
        exState.S_array (Equiv.refl (Fin 2) i)) ∧
     (∀ i, norm3 (sub3 (exState.P i) (exState.S_array (Equiv.refl (Fin 2) i))) / 1 ≤
        (compute_assignment 1 (Equiv.refl (Fin 2)) exState).goals_msg.tf) ∧
     (∃ i, (compute_assignment 1 (Equiv.refl (Fin 2)) exState).goals_msg.tf =
        norm3 (sub3 (exState.P i) (exState.S_array (Equiv.refl (Fin 2) i))) / 1)) := by
  have hP : pairwiseSep exState.P (delta (1 / 2)) := exP_sep
  have hS : pairwiseSep exState.S_array (delta (1 / 2)) := exS_sep
  exact ⟨by norm_num, by norm_num, hP, hS,
    compute_assignment_correct (1 / 2) 1 exState (Equiv.refl (Fin 2))
      (by norm_num) (by norm_num) hP hS⟩

/-- C2: in a control-loop tick while the mission is started, the goals
message is re-broadcast iff some received_goal flag is false, the go
signal is broadcast iff all received_goal flags are true, and the tick
marks the mission ended (M_END true, M_START and the phase flags false)
iff every arrived flag is true. -/
theorem tick_barrier {n : ℕ} (s : MissionState n) (h : s.M_START = true) :
    ((tick s).2.pubGoals = true ↔ ¬ ∀ i, s.received_goals i = true) ∧
    ((tick s).2.pubGo = true ↔ ∀ i, s.received_goals i = true) ∧
    (((tick s).1.M_END = true ∧ (tick s).1.M_START = false ∧
      (tick s).1.P_is_set = false ∧ (tick s).1.S_is_set = false ∧
      (tick s).1.G_is_set = false) ↔ ∀ i, s.arrival_state i = true) := by
  by_cases hr : allTrue s.received_goals = true <;>
    by_cases ha : allTrue s.arrival_state = true <;>
      simp [tick, isFormationComplete, h, hr, ha, ← allTrue_iff]

/-- Example mission state with the started flag raised. -/
def exStarted : MissionState 2 := { initState 2 exS with M_START := true }

/-- Witness for C2: the started example state, where no goal has been
received and no robot has arrived. -/
theorem tick_barrier_witness :
    exStarted.M_START = true ∧
    (((tick exStarted).2.pubGoals = true ↔
        ¬ ∀ i, exStarted.received_goals i = true) ∧
     ((tick exStarted).2.pubGo = true ↔
        ∀ i, exStarted.received_goals i = true) ∧
     (((tick exStarted).1.M_END = true ∧ (tick exStarted).1.M_START = false ∧
       (tick exStarted).1.P_is_set = false ∧
       (tick exStarted).1.S_is_set = false ∧
       (tick exStarted).1.G_is_set = false) ↔
        ∀ i, exStarted.arrival_state i = true)) :=
  ⟨rfl, tick_barrier exStarted rfl⟩

/-- C5: with delta = 2*sqrt 2*R, validation marks the configuration
invalid iff some distinct pair of start rows or of shape rows is at
distance at most delta (the comparison is strict: a pair at exactly delta
is rejected), and validity is invariant under permuting the rows of P. -/
theorem validate_positions_correct {n : ℕ} (R : ℝ) (s : MissionState n)
    (σ : Equiv.Perm (Fin n)) :
    (((validate_positions R s).valid_P &&
        (validate_positions R s).valid_S) = false ↔
      ∃ i j : Fin n, i ≠ j ∧
        (norm3 (sub3 (s.P i) (s.P j)) ≤ delta R ∨
         norm3 (sub3 (s.S_array i) (s.S_array j)) ≤ delta R)) ∧
    ((validate_positions R { s with P := fun i => s.P (σ i) }).valid_P &&
       (validate_positions R { s with P := fun i => s.P (σ i) }).valid_S) =
      ((validate_positions R s).valid_P &&
       (validate_positions R s).valid_S) := by
  constructor
  · simp only [validate_positions, Bool.and_eq_false_iff,
      decide_eq_false_iff_not, pairwiseSep]
    push_neg
    constructor
    · rintro (⟨i, j, hne, hle⟩ | ⟨i, j, hne, hle⟩)
      · exact ⟨i, j, hne, Or.inl hle⟩
      · exact ⟨i, j, hne, Or.inr hle⟩
    · rintro ⟨i, j, hne, hle | hle⟩
      · exact Or.inl ⟨i, j, hne, hle⟩
      · exact Or.inr ⟨i, j, hne, hle⟩
  · have h1 : decide (pairwiseSep (fun i => s.P (σ i)) (delta R)) =
        decide (pairwiseSep s.P (delta R)) :=
      decide_eq_decide.mpr (pairwiseSep_comp_perm s.P (delta R) σ)
    simp only [validate_positions]
    rw [h1]

/-- Single row of ones used in the C6 disequality instance. -/
def exOne : Fin 1 → Vec3 := fun _ => vec3 1 0 0

/-- C6: the cost matrix handed to the assignment solver is exactly the
negated dot product of start row i and shape row j, for every i and j —
and it is not the Euclidean distance between them. -/
theorem costK_correct :
    (∀ (n : ℕ) (P S : Fin n → Vec3) (i j : Fin n),
        costK P S i j = -(dot3 (P i) (S j))) ∧
    (∃ (P S : Fin 1 → Vec3) (i j : Fin 1),
        costK P S i j ≠ norm3 (sub3 (P i) (S j))) := by
  constructor
  · intro n P S i j
    simp [costK, npDot, npTranspose, dot3, neg_one_mul]
  · refine ⟨exOne, exOne, 0, 0, ?_⟩
    have h1 : costK exOne exOne 0 0 = -1 := by
      simp [costK, npDot, npTranspose, exOne, vec3, Fin.sum_univ_three]
    have h2 : norm3 (sub3 (exOne 0) (exOne 0)) = 0 := by
      show norm3 (sub3 (vec3 1 0 0) (vec3 1 0 0)) = 0
      rw [sub3_vec3, norm3_vec3]
      norm_num
    rw [h1, h2]
    norm_num

/-- C7: the goal for RobotId k is sent with wire target address k+1 and
the goals go out in increasing robot order; an inbound state report with
wire source address k+1 (which lies in [1, n]) is attributed back to
RobotId k, so encoding then decoding recovers k. -/
theorem address_roundtrip {n : ℕ} (mid : ℕ) (msg : FormationPositions n)
    (k : Fin n) (a b c d e f : ℝ) :
    ((formationCb msg).map (fun m => m.target_system)) =
      (List.range n).map (fun i => i + 1) ∧
    recvCb n mid
      { msgType := "COMMAND_LONG", srcSystem := k.val + 1,
        target_system := some mid, command := MAV_CMD_USER_1,
        param1 := ROBOT_STATE, param2 := a, param3 := b, param4 := c,
        param5 := d, param6 := e, param7 := f } =
      Except.ok (some (k.val,
        { received_goal := a, mission_started := b, arrived := c,
          x := d, y := e, z := f })) := by
  constructor
  · simp only [formationCb, List.map_map]
    rw [← List.map_coe_finRange, List.map_map]
    rfl
  · simp [recvCb, Nat.succ_le.mpr k.isLt]

/-- C8: a second start command while the mission is already started is a
no-op with a warning: the callback returns without error and no field of
the mission state (snapshot P, goals G, goals message with its deadline
tf, or any flag) changes. -/
theorem startCb_already_started {n : ℕ} (R : ℝ) (shape : Fin n → Vec3)
    (s : MissionState n) (h : s.M_START = true) :
    startCb R shape s = Except.ok s ∧ startState R shape s = s := by
  constructor
  · rw [startCb, if_pos h]
  · rw [startState, if_pos h]

/-- Witness for C8 at the started example state. -/
theorem startCb_already_started_witness :
    exStarted.M_START = true ∧
    (startCb 1 exS exStarted = Except.ok exStarted ∧
     startState 1 exS exStarted = exStarted) :=
  ⟨rfl, startCb_already_started 1 exS exStarted rfl⟩

/-- Heartbeat message: its pymavlink type has no target_system field. -/
def hbMsg : RawMsg :=
  { msgType := "HEARTBEAT", srcSystem := 1, target_system := none,
    command := 0, param1 := 0, param2 := 0, param3 := 0, param4 := 0,
    param5 := 0, param6 := 0, param7 := 0 }

/-- C9 counterexample: a heartbeat message is not dropped without
changing state — reading its missing target_system attribute at the top
of the loop body raises AttributeError, killing the receive thread. -/
theorem recvCb_counterexample :
    hbMsg.target_system = none ∧
    recvCb 5 255 hbMsg =
      Except.error "AttributeError: object has no attribute target_system" :=
  ⟨rfl, rfl⟩

/-- C9 amended: a per-robot state record is built and published only if
the message type is COMMAND_LONG, the source address lies in [1, n], the
command is the generic user command, the target is the master (ground
station) address, and param1 selects ROBOT_STATE; the published record is
attributed to robot srcSystem - 1 and filled in order received-goal,
mission-started, arrived, x, y, z from param2..param7; a message that
carries a target_system attribute and fails the checks publishes nothing
and changes no state; but a message whose type lacks the target_system
attribute raises AttributeError instead of being dropped. -/
theorem recvCb_filter (n mid : ℕ) (m : RawMsg) :
    (m.target_system = none →
      recvCb n mid m =
        Except.error "AttributeError: object has no attribute target_system") ∧
    (∀ r rec, recvCb n mid m = Except.ok (some (r, rec)) →
      (m.msgType = "COMMAND_LONG" ∧ 0 < m.srcSystem ∧ m.srcSystem ≤ n ∧
       m.command = MAV_CMD_USER_1 ∧ m.target_system = some mid ∧
       m.param1 = ROBOT_STATE) ∧
      r = m.srcSystem - 1 ∧
      rec = { received_goal := m.param2, mission_started := m.param3,
              arrived := m.param4, x := m.param5, y := m.param6,
              z := m.param7 }) ∧
    (∀ tgt, m.target_system = some tgt →
      ¬ (m.msgType = "COMMAND_LONG" ∧ 0 < m.srcSystem ∧ m.srcSystem ≤ n ∧
         m.command = MAV_CMD_USER_1 ∧ tgt = mid) →
      recvCb n mid m = Except.ok none) := by
  refine ⟨?_, ?_, ?_⟩
  · intro hnone
    rw [recvCb, if_pos hnone]
  · intro r rec hsome
    rw [recvCb] at hsome
    by_cases hnone : m.target_system = none
    · rw [if_pos hnone] at hsome
      cases hsome
    · rw [if_neg hnone] at hsome
      by_cases hc : m.msgType = "COMMAND_LONG" ∧ 0 < m.srcSystem ∧
          m.srcSystem ≤ n ∧ m.command = MAV_CMD_USER_1 ∧
          m.target_system = some mid
      · rw [if_pos hc] at hsome
        by_cases hp : m.param1 = ROBOT_STATE
        · rw [if_pos hp] at hsome
          simp only [Except.ok.injEq, Option.some.injEq,
            Prod.mk.injEq] at hsome
          obtain ⟨h1, h2⟩ := hsome
          exact ⟨⟨hc.1, hc.2.1, hc.2.2.1, hc.2.2.2.1, hc.2.2.2.2, hp⟩,
            h1.symm, h2.symm⟩
        · rw [if_neg hp] at hsome
          cases hsome
      · rw [if_neg hc] at hsome
        cases hsome
  · intro tgt htgt hc
    have hc5 : ¬ (m.msgType = "COMMAND_LONG" ∧ 0 < m.srcSystem ∧
        m.srcSystem ≤ n ∧ m.command = MAV_CMD_USER_1 ∧
        m.target_system = some mid) := by
      intro h5
      refine hc ⟨h5.1, h5.2.1, h5.2.2.1, h5.2.2.2.1, ?_⟩
      have := h5.2.2.2.2
      rw [htgt] at this
      exact Option.some_inj.mp this
    rw [recvCb, if_neg (by simp [htgt]), if_neg hc5]

/-- Message that carries a target_system but fails the source check. -/
def badMsg : RawMsg :=
  { msgType := "COMMAND_LONG", srcSystem := 9, target_system := some 255,
    command := 0, param1 := 0, param2 := 0, param3 := 0, param4 := 0,
    param5 := 0, param6 := 0, param7 := 0 }

/-- Witness for the amended C9: the heartbeat raises AttributeError, and
a COMMAND_LONG from an out-of-range source (9 with n = 5) is dropped. -/
theorem recvCb_filter_witness :
    hbMsg.target_system = none ∧
    recvCb 5 255 hbMsg =
      Except.error "AttributeError: object has no attribute target_system" ∧
    badMsg.target_system = some 255 ∧
    ¬ (badMsg.msgType = "COMMAND_LONG" ∧ 0 < badMsg.srcSystem ∧
       badMsg.srcSystem ≤ 5 ∧ badMsg.command = MAV_CMD_USER_1 ∧
       (255 : ℕ) = 255) ∧
    recvCb 5 255 badMsg = Except.ok none := by
  have hbad : ¬ (badMsg.msgType = "COMMAND_LONG" ∧ 0 < badMsg.srcSystem ∧
      badMsg.srcSystem ≤ 5 ∧ badMsg.command = MAV_CMD_USER_1 ∧
      (255 : ℕ) = 255) := by
    intro hcon
    exact absurd hcon.2.2.1 (by decide)
  exact ⟨rfl, (recvCb_filter 5 255 hbMsg).1 rfl, rfl, hbad,
    (recvCb_filter 5 255 badMsg).2.2 255 rfl hbad⟩

/-- C3 counterexample: with two robots at the same spot (invalid start
spacing) and a validly spaced shape, the start command raises NameError
instead of returning as a no-op; it also sets the positions-set flag, so
the mission state does not stay in its idle configuration. -/
theorem startCb_counterexample :
    (initState 2 exS).M_START = false ∧
    ¬ pairwiseSep (initState 2 exS).current_P (delta (1 / 2)) ∧
    startCb (1 / 2) exS (initState 2 exS) =
      Except.error "NameError: name valid_P is not defined" ∧
    (startState (1 / 2) exS (initState 2 exS)).P_is_set = true := by
  have hzero : norm3 (sub3 (vec3 0 0 0) (vec3 0 0 0)) = 0 := by
    rw [sub3_vec3, norm3_vec3]
    norm_num
  refine ⟨rfl, ?_, ?_, ?_⟩
  · intro h
    refine h 0 1 (by decide) ?_
    show norm3 (sub3 (vec3 0 0 0) (vec3 0 0 0)) ≤ delta (1 / 2)
    rw [hzero]
    exact delta_half_nonneg
  · rw [startCb, if_neg (by simp [initState]), if_pos ?_]
    show (validate_positions (1 / 2) (set_desired_formation exS
      (set_start_posCb (initState 2 exS)))).valid_S = true
    exact decide_eq_true exS_sep
  · rw [startState, if_neg (by simp [initState])]
    rfl

/-- C3 amended: a start command on a non-started state always snapshots
the positions and reloads the shape (overwriting P and S_array and
setting both set-flags) and never starts the mission; when the shape
spacing is invalid it returns normally with the started/ended/goals
fields untouched, and when the shape spacing is valid it raises
NameError (the bare name `valid_P` in the guard is undefined). -/
theorem startCb_invalid {n : ℕ} (R : ℝ) (shape : Fin n → Vec3)
    (s : MissionState n) (h : s.M_START = false) :
    ((startState R shape s).M_START = false ∧
     (startState R shape s).M_END = s.M_END ∧
     (startState R shape s).G_is_set = s.G_is_set ∧
     (startState R shape s).G = s.G ∧
     (startState R shape s).goals_msg = s.goals_msg ∧
     (startState R shape s).P_is_set = true ∧
     (startState R shape s).S_is_set = true ∧
     (startState R shape s).P = s.current_P ∧
     (startState R shape s).S_array = shape) ∧
    (¬ pairwiseSep shape (delta R) →
      startCb R shape s = Except.ok (startState R shape s)) ∧
    (pairwiseSep shape (delta R) →
      startCb R shape s =
        Except.error "NameError: name valid_P is not defined") := by
  have hns : startState R shape s =
      validate_positions R (set_desired_formation shape (set_start_posCb s)) := by
    rw [startState, if_neg (by simp [h])]
  refine ⟨?_, ?_, ?_⟩
  · rw [hns]
    exact ⟨h, rfl, rfl, rfl, rfl, rfl, rfl, rfl, rfl⟩
  · intro hinv
    have hc : (validate_positions R (set_desired_formation shape
        (set_start_posCb s))).valid_S = false := by
      simp only [validate_positions, set_desired_formation]
      exact decide_eq_false hinv
    rw [startCb, if_neg (by simp [h]), if_neg (by simp [hc]), hns]
  · intro hval
    have hc : (validate_positions R (set_desired_formation shape
        (set_start_posCb s))).valid_S = true := by
      simp only [validate_positions, set_desired_formation]
      exact decide_eq_true hval
    rw [startCb, if_neg (by simp [h]), if_pos hc]

/-- Witness for the amended C3: the fresh two-robot state (robots both at
the origin, so the start spacing is invalid while the shape is valid). -/
theorem startCb_invalid_witness :
    (initState 2 exS).M_START = false ∧
    pairwiseSep exS (delta (1 / 2)) ∧
    startCb (1 / 2) exS (initState 2 exS) =
      Except.error "NameError: name valid_P is not defined" :=
  ⟨rfl, exS_sep,
    (startCb_invalid (1 / 2) exS (initState 2 exS) rfl).2.2 exS_sep⟩

/-- Shape parameter used in the one-robot counterexample trace. -/
def zShape : Fin 1 → Vec3 := fun _ => vec3 0 0 0

/-- Robot state report: arrived. -/
def arrMsg : RobotStateMsg :=
  { point := vec3 0 0 0, arrived := true, received_goal := false }

/-- Robot state report: not arrived. -/
def notArrMsg : RobotStateMsg :=
  { point := vec3 0 0 0, arrived := false, received_goal := false }

lemma allTrue_one (f : Fin 1 → Bool) : allTrue f = f 0 := by
  have h : List.finRange 1 = [(0 : Fin 1)] := by decide
  simp [allTrue, h]

/-- Concrete event trace for the C4 counterexample: robot 0 reports
arrived, a tick marks the mission ended, then robot 0 reports not
arrived. -/
def cexTrace : List (MEvent 1) :=
  [MEvent.robot 0 arrMsg, MEvent.tick, MEvent.robot 0 notArrMsg]

/-- C4 counterexample: the invariant fails in a reachable state.  After a
robot reports arrived and a tick marks the mission ended, a further
robot-state callback clearing the arrived flag leaves ended true with not
all robots arrived. -/
theorem missionInv_counterexample :
    Reachable zShape (run zShape cexTrace) ∧
    (run zShape cexTrace).M_END = true ∧
    (run zShape cexTrace).arrival_state 0 = false ∧
    ¬ MissionInv (run zShape cexTrace) := by
  have hend : (run zShape cexTrace).M_END = true := by
    simp [run, cexTrace, stepEv, tick, rCb, isFormationComplete, initState,
      zShape, arrMsg, notArrMsg, allTrue_one]
  have harr : (run zShape cexTrace).arrival_state 0 = false := by
    simp [run, cexTrace, stepEv, tick, rCb, isFormationComplete, initState,
      zShape, arrMsg, notArrMsg, allTrue_one]
  refine ⟨⟨cexTrace, rfl⟩, hend, harr, ?_⟩
  intro hI
  have hcon := hI.1 hend 0
  rw [harr] at hcon
  cases hcon

/-- C4 amended: the invariant (ended implies all arrived; started and
ended never both true) holds initially and is preserved by every
control-loop tick, by land/hold commands and by start commands (which
never touch the started, ended or arrived fields, the mission-start
branch being dead code); only robot-state callbacks can break it, by
clearing an arrived flag while ended is true (see the counterexample). -/
theorem missionInv_preserved {n : ℕ} (shape0 : Fin n → Vec3) :
    MissionInv (initState n shape0) ∧
    (∀ s : MissionState n, MissionInv s →
      MissionInv (tick s).1 ∧ MissionInv (landCb s) ∧ MissionInv (holdCb s) ∧
      ∀ (R : ℝ) (shape : Fin n → Vec3), MissionInv (startState R shape s)) := by
  constructor
  · exact ⟨fun he => absurd he (by simp [initState]), fun hc => absurd hc.2 (by simp [initState])⟩
  · intro s hI
    refine ⟨?_, ⟨fun he => hI.1 he, fun hc => absurd hc.1 (by simp [landCb])⟩,
      ⟨fun he => hI.1 he, fun hc => absurd hc.1 (by simp [holdCb])⟩, ?_⟩
    case refine_2 =>
      intro R shape
      rw [startState]
      by_cases hst : s.M_START = true
      · rw [if_pos hst]
        exact hI
      · rw [if_neg hst]
        exact ⟨fun he => hI.1 he, fun hc => hI.2 hc⟩
    by_cases hst : s.M_START = true <;>
      by_cases ha : allTrue s.arrival_state = true
    · constructor
      · intro _ i
        have := (allTrue_iff s.arrival_state).mp ha i
        simpa [tick, isFormationComplete, hst, ha] using this
      · intro hc
        have := hc.1
        simp [tick, isFormationComplete, hst, ha] at this
    · constructor
      · intro he
        have := he
        simp [tick, isFormationComplete, hst, ha] at this
      · intro hc
        have := hc.2
        simp [tick, isFormationComplete, hst, ha] at this
    · constructor
      · intro _ i
        have := (allTrue_iff s.arrival_state).mp ha i
        simpa [tick, isFormationComplete, hst, ha] using this
      · intro hc
        have := hc.1
        simp [tick, isFormationComplete, hst, ha] at this
    · rw [Bool.not_eq_true] at hst
      constructor
      · intro he i
        have hend : s.M_END = true := by
          simpa [tick, isFormationComplete, hst, ha] using he
        have := hI.1 hend i
        simpa [tick, isFormationComplete, hst, ha] using this
      · intro hc
        have := hc.1
        simp [tick, isFormationComplete, hst, ha] at this

/-- Witness for the amended C4 at the one-robot initial state. -/
theorem missionInv_preserved_witness :
    MissionInv (initState 1 zShape) ∧
    MissionInv (tick (initState 1 zShape)).1 ∧
    MissionInv (startState 1 zShape (initState 1 zShape)) :=
  ⟨(missionInv_preserved zShape).1,
    ((missionInv_preserved zShape).2 (initState 1 zShape)
      (missionInv_preserved zShape).1).1,
    ((missionInv_preserved zShape).2 (initState 1 zShape)
      (missionInv_preserved zShape).1).2.2.2 1 zShape⟩

/-- C10: land (and hold, which has an identical body) resets only the
four phase flags; the per-robot received and arrived flags, the ended
flag, the validity flags, the goals message and every position array keep
their previous values — so when all arrived flags were already true the
very next control-loop tick marks the mission ended again even though no
mission is in progress. -/
theorem landCb_frame {n : ℕ} (s : MissionState n) :
    ((landCb s).M_START = false ∧ (landCb s).P_is_set = false ∧
     (landCb s).S_is_set = false ∧ (landCb s).G_is_set = false) ∧
    ((landCb s).received_goals = s.received_goals ∧
     (landCb s).arrival_state = s.arrival_state ∧
     (landCb s).M_END = s.M_END ∧
     (landCb s).formation_completed = s.formation_completed ∧
     (landCb s).valid_P = s.valid_P ∧
     (landCb s).valid_S = s.valid_S ∧
     (landCb s).goals_msg = s.goals_msg ∧
     (landCb s).P = s.P ∧
     (landCb s).S_array = s.S_array ∧
     (landCb s).G = s.G ∧
     (landCb s).current_P = s.current_P) ∧
    holdCb s = landCb s ∧
    ((∀ i, s.arrival_state i = true) →
      (tick (landCb s)).1.M_END = true ∧
      (tick (landCb s)).1.M_START = false) := by
  refine ⟨⟨rfl, rfl, rfl, rfl⟩,
    ⟨rfl, rfl, rfl, rfl, rfl, rfl, rfl, rfl, rfl, rfl, rfl⟩, rfl, ?_⟩
  intro h
  have ha : allTrue s.arrival_state = true := (allTrue_iff _).mpr h
  constructor <;> simp [tick, isFormationComplete, landCb, ha]

/-- Example mission state in which every robot has arrived. -/
def exArrived : MissionState 2 :=
  { initState 2 exS with arrival_state := fun _ => true }

/-- Witness for C10 at the all-arrived example state: the unconditional
frame part is instantiated and the next-tick consequence is discharged
with every arrived flag concretely true. -/
theorem landCb_frame_witness :
    (∀ i, exArrived.arrival_state i = true) ∧
    ((landCb exArrived).M_START = false ∧
     (landCb exArrived).P_is_set = false ∧
     (landCb exArrived).S_is_set = false ∧
     (landCb exArrived).G_is_set = false) ∧
    ((landCb exArrived).received_goals = exArrived.received_goals ∧
     (landCb exArrived).arrival_state = exArrived.arrival_state ∧
     (landCb exArrived).M_END = exArrived.M_END ∧
     (landCb exArrived).formation_completed = exArrived.formation_completed ∧
     (landCb exArrived).valid_P = exArrived.valid_P ∧
     (landCb exArrived).valid_S = exArrived.valid_S ∧
     (landCb exArrived).goals_msg = exArrived.goals_msg ∧
     (landCb exArrived).P = exArrived.P ∧
     (landCb exArrived).S_array = exArrived.S_array ∧
     (landCb exArrived).G = exArrived.G ∧
     (landCb exArrived).current_P = exArrived.current_P) ∧
    holdCb exArrived = landCb exArrived ∧
    ((tick (landCb exArrived)).1.M_END = true ∧
     (tick (landCb exArrived)).1.M_START = false) :=
  ⟨fun _ => rfl, (landCb_frame exArrived).1, (landCb_frame exArrived).2.1,
    (landCb_frame exArrived).2.2.1,
    (landCb_frame exArrived).2.2.2 (fun _ => rfl)⟩

end Formation
